import Mathlib

/-!
Verification of the `scanline` software scanline renderer.

This file gives a shallow embedding of the crate's core:

* half-open signed intervals (`Range<isize>`) with the crate's private
  `Offset::offset` and `Intersect::intersect` operations (src/lib.rs),
* the orchestrators `render_segment` / `render_line` (src/lib.rs), with panics
  modelled as `Except RenderError` and the destination buffer as `List Nat`
  of byte values,
* the drawable adapters `Bitmap` (src/drawables/bitmap.rs), `ZoomedBitmap`
  (src/drawables/zoomed_bitmap.rs) and `ColorClip`
  (src/drawables/color_clip.rs), with their `Sprite` and `Effect`
  implementations; adapter panics (assertions, and overflowing `u8`
  addition, which aborts in debug builds) are modelled as `Option` results.

Machine integers are modelled as `Nat` (for `usize`/`u8`/`u16`) and `Int`
(for `isize`/`i64`); the only machine effects relevant to the verified
properties are the fallible `usize` conversions (negative values) and the
`u8` range, which are modelled explicitly.
-/

/-- Half-open interval of signed pixel coordinates, `Range<isize>`.
`stop` is Rust's `end` (a Lean keyword). -/
structure IntRange where
  start : Int
  stop : Int
deriving DecidableEq, Repr

/-- Rust `Range::len` (via `steps_between`): `end - start`, clamped at zero. -/
def IntRange.len (r : IntRange) : Nat := (r.stop - r.start).toNat

/-- Rust `Range::contains`. -/
def IntRange.contains (r : IntRange) (i : Int) : Bool := r.start ≤ i && i < r.stop

/-- The crate's `Offset::offset` for `Range<isize>`: translate both bounds. -/
def IntRange.offset (r : IntRange) (k : Int) : IntRange := ⟨r.start + k, r.stop + k⟩

/-- The crate's `Intersect::intersect` (src/lib.rs lines 351-360): the Rust
`match (self.start.cmp(&rhs.end), self.end.cmp(&rhs.start))` produces `Some`
exactly on `(Less, Greater)`, i.e. iff `self.start < rhs.end` and
`self.end > rhs.start`, and the overlap is `max start .. min end`. -/
def IntRange.intersect (a b : IntRange) : Option IntRange :=
  if a.start < b.stop ∧ a.stop > b.start then
    some ⟨max a.start b.start, min a.stop b.stop⟩
  else
    none

/-- `Position` (src/lib.rs): rightwards/downwards pixel offsets. -/
structure Position where
  x : Int
  y : Int
deriving DecidableEq, Repr

/-- `RgbaNoPadding::<8>::PIXEL_STRIDE_BITS = 4 * 8` (src/pixel_formats.rs). -/
def RgbaNoPadding8.PIXEL_STRIDE_BITS : Nat := 4 * 8

/-- A drawable as the orchestrator sees it: the `Sprite` / `Effect` trait
surface (src/lib.rs). Both traits have the same shape; the orchestrator's two
loops are structurally identical, so one record covers both roles. `render`
returns the updated slice contents, or `none` for a panic inside the adapter. -/
structure Drawable where
  lines : Option IntRange → IntRange
  lineSegment : Option IntRange → Int → IntRange → IntRange
  render : Option IntRange → Int → IntRange → IntRange → Nat → List Nat → Option (List Nat)

/-- The distinct fatal conditions (panics) of the orchestrator, by source site. -/
inductive RenderError where
  /-- `render_line`: `assert_eq!(P::PIXEL_STRIDE_BITS % 8, 0)`. -/
  | invalidFormat
  /-- `render_line`: `buffer.len() / (P::PIXEL_STRIDE_BITS / 8)` divides by zero. -/
  | divisionByZero
  /-- `render_segment`: the `i64 % 8` remainder is negative, so the
  `try_into::<usize>` with message "extreme pixel stride caused segment offset
  overflow" fails. -/
  | segmentOffsetNegative
  /-- `render_segment`: the `assert!(buffer.len() >= ...)` buffer-size check. -/
  | bufferTooSmall
  /-- `render_segment`: `try_into::<usize>` with message "buffer clip pixels"
  fails on a negative caller-space clip bound. -/
  | clipPixelsNegative
  /-- `render_segment`: indexing `buffer[buffer_clip]` out of range. -/
  | sliceOutOfRange
  /-- A panic inside the dispatched drawable's own `render`. -/
  | drawablePanic
deriving DecidableEq, Repr

/-- Byte bound of the orchestrator's `buffer_clip` for one pixel bound `a`:
`(segment_offset_bits + a * P::PIXEL_STRIDE_BITS + 7) / 8` (src/lib.rs). -/
def bufferClip (soff a S : Nat) : Nat := (soff + a * S + 7) / 8

/-- The byte sub-slice `&mut buffer[c1..c2]` handed to a drawable's `render`. -/
def sliceClip (buffer : List Nat) (c1 c2 : Nat) : List Nat :=
  (buffer.drop c1).take (c2 - c1)

/-- Writing the mutated slice contents back in place of `buffer[c1..c2]`. -/
def writeBack (buffer out : List Nat) (c1 c2 : Nat) : List Nat :=
  buffer.take c1 ++ out ++ buffer.drop c2

/-- One iteration of a `render_segment` loop (src/lib.rs lines 251-291 for
sprites, 293-333 for effects; both loops are textually identical): translate
the line hint, line index, line span and segment span into drawable space,
skip if the line or the intersected segment misses, otherwise convert the
intersected segment back to caller space, map it to a byte sub-slice, and
dispatch `render` on that slice. -/
def renderStep (S soff : Nat) (al : Option IntRange) (li : Int) (ls ss : IntRange)
    (pd : Position × Drawable) (buffer : List Nat) : Except RenderError (List Nat) :=
  let al2 := al.map fun r => r.offset (-pd.1.y)
  let li2 := li - pd.1.y
  if (pd.2.lines al2).contains li2 then
    let ls2 := ls.offset (-pd.1.x)
    let ss2 := ss.offset (-pd.1.x)
    match ss2.intersect (pd.2.lineSegment al2 li2 ls2) with
    | none => .ok buffer
    | some seg =>
      let clipPix := seg.offset pd.1.x
      if 0 ≤ clipPix.start then
        if 0 ≤ clipPix.stop then
          let c1 := bufferClip soff clipPix.start.toNat S
          let c2 := bufferClip soff clipPix.stop.toNat S
          if c1 ≤ c2 ∧ c2 ≤ buffer.length then
            match pd.2.render al2 li2 ls2 seg soff (sliceClip buffer c1 c2) with
            | some out => .ok (writeBack buffer out c1 c2)
            | none => .error .drawablePanic
          else .error .sliceOutOfRange
        else .error .clipPixelsNegative
      else .error .clipPixelsNegative
  else .ok buffer

/-- One `render_segment` loop over a drawable collection, threading the buffer. -/
def runDrawables (S soff : Nat) (al : Option IntRange) (li : Int) (ls ss : IntRange) :
    List (Position × Drawable) → List Nat → Except RenderError (List Nat)
  | [], buffer => .ok buffer
  | pd :: rest, buffer =>
    match renderStep S soff al li ls ss pd buffer with
    | .ok b2 => runDrawables S soff al li ls ss rest b2
    | .error e => .error e

/-- `segment_offset_bits` before `usize` conversion:
`(segment_span.start as i64 * PIXEL_STRIDE_BITS as i64) % 8`, where Rust `%`
on `i64` is truncated remainder (`Int.tmod`). -/
def segOffsetBits (S : Nat) (s0 : Int) : Int := (s0 * (S : Int)).tmod 8

/-- `render_segment` (src/lib.rs lines 217-334): compute `segment_offset_bits`,
check the buffer is large enough, then run the sprite loop followed by the
effect loop. -/
def renderSegment (S : Nat) (al : Option IntRange) (li : Int) (ls ss : IntRange)
    (buffer : List Nat) (sprites effects : List (Position × Drawable)) :
    Except RenderError (List Nat) :=
  let ob := segOffsetBits S ss.start
  if 0 ≤ ob then
    let soff := ob.toNat
    if (ss.len * S + soff + 7) / 8 ≤ buffer.length then
      match runDrawables S soff al li ls ss sprites buffer with
      | .ok b2 => runDrawables S soff al li ls ss effects b2
      | .error e => .error e
    else .error .bufferTooSmall
  else .error .segmentOffsetNegative

/-- `render_line` (src/lib.rs lines 182-210): assert the stride is a whole
number of bytes, derive the full-width span from the buffer length, and
delegate to `render_segment`. A zero stride passes the assertion but the
division `buffer.len() / (PIXEL_STRIDE_BITS / 8)` then panics. -/
def renderLine (S : Nat) (al : Option IntRange) (li : Int) (buffer : List Nat)
    (sprites effects : List (Position × Drawable)) : Except RenderError (List Nat) :=
  if S % 8 = 0 then
    if 0 < S / 8 then
      let n : Int := (buffer.length / (S / 8) : Nat)
      renderSegment S al li ⟨0, n⟩ ⟨0, n⟩ buffer sprites effects
    else .error .divisionByZero
  else .error .invalidFormat

/-- `chunks_exact(n)`: the list of complete length-`n` chunks, any remainder
dropped. Recursion on a fuel bounded by the list length. -/
def chunksExactGo (n : Nat) : Nat → List Nat → List (List Nat)
  | 0, _ => []
  | fuel + 1, l =>
    if 0 < n ∧ n ≤ l.length then l.take n :: chunksExactGo n fuel (l.drop n) else []

/-- `chunks_exact(n)` over a byte list. -/
def chunksExact (n : Nat) (l : List Nat) : List (List Nat) := chunksExactGo n l.length l

/-- `repeat_each` (src/drawables/zoomed_bitmap.rs lines 173-177): each element
repeated `n` times in place. -/
def repeatEach (n : Nat) (l : List (List Nat)) : List (List Nat) :=
  l.flatMap fun x => List.replicate n x

/-- The `Bitmap` / `ColorClip` Sprite blend for one channel
(src/drawables/bitmap.rs lines 81-88): widen to `u16`, compute
`src * (255 - dest_alpha) / 255`, narrow back to `u8`, and add with
`saturating_add`. All values stay below 2^16, so plain `Nat` arithmetic agrees
with the Rust `u16` arithmetic; the saturating add is `min 255`. -/
def blendChannelSprite (dest src destAlpha : Nat) : Nat :=
  min 255 (dest + src * (255 - destAlpha) / 255)

/-- The `Bitmap` / `ColorClip` Effect blend for one channel
(src/drawables/bitmap.rs lines 144-151): `src.saturating_add(dest * (255 -
src_alpha) / 255)`. -/
def blendChannelEffect (dest src srcAlpha : Nat) : Nat :=
  min 255 (src + dest * (255 - srcAlpha) / 255)

/-- The `ZoomedBitmap` Sprite blend for one channel (src/drawables/
zoomed_bitmap.rs lines 95-100): `*dest += src * (255 - dest_alpha) / 255` with
a plain (non-saturating) `u8` addition, which is a fatal overflow (`none`)
when the sum exceeds the channel maximum. -/
def zoomedChannelSprite (dest src destAlpha : Nat) : Option Nat :=
  let v := dest + src * (255 - destAlpha) / 255
  if v ≤ 255 then some v else none

/-- The `ZoomedBitmap` Effect blend for one channel (src/drawables/
zoomed_bitmap.rs lines 162-167): `*dest = src + dest * (255 - src_alpha) / 255`
with a plain (non-saturating) `u8` addition. -/
def zoomedChannelEffect (dest src srcAlpha : Nat) : Option Nat :=
  let v := src + dest * (255 - srcAlpha) / 255
  if v ≤ 255 then some v else none

/-- One pixel of the `Bitmap` Sprite blend: `dest_alpha = dest[3]`, then each
zipped channel pair is blended. -/
def bitmapPixelSprite (src dest : List Nat) : Option (List Nat) := do
  let a ← dest[3]?
  pure ((src.zip dest).map fun p => blendChannelSprite p.2 p.1 a)

/-- One pixel of the `Bitmap` Effect blend: `src_alpha = src[3]`. -/
def bitmapPixelEffect (src dest : List Nat) : Option (List Nat) := do
  let a ← src[3]?
  pure ((src.zip dest).map fun p => blendChannelEffect p.2 p.1 a)

/-- One pixel of the `ZoomedBitmap` Sprite blend (fallible channels). -/
def zoomedPixelSprite (src dest : List Nat) : Option (List Nat) := do
  let a ← dest[3]?
  (src.zip dest).mapM fun p => zoomedChannelSprite p.2 p.1 a

/-- One pixel of the `ZoomedBitmap` Effect blend (fallible channels). -/
def zoomedPixelEffect (src dest : List Nat) : Option (List Nat) := do
  let a ← src[3]?
  (src.zip dest).mapM fun p => zoomedChannelEffect p.2 p.1 a

/-- The state of a `Bitmap<RgbaNoPadding<8>>` (src/drawables/bitmap.rs). -/
structure BitmapData where
  width : Nat
  data : List Nat

/-- The `assert_eq!` in `Bitmap::new` (src/drawables/bitmap.rs lines 19-22),
exactly as written: `data.len() % (width * PIXEL_STRIDE_BITS * 8) == 0`. -/
def BitmapData.newCheck (width dataLen : Nat) : Bool :=
  dataLen % (width * RgbaNoPadding8.PIXEL_STRIDE_BITS * 8) == 0

/-- The construction condition the crate documents for `Bitmap::new` ("Iff
`data` doesn't represent a whole number of lines of width `width`"): the data
length is a whole number of rows of `width` pixels of `PIXEL_STRIDE_BITS / 8`
bytes each. Modelled from the doc comment, for comparison with the assertion. -/
def BitmapData.wholeRows (width dataLen : Nat) : Bool :=
  dataLen % (width * (RgbaNoPadding8.PIXEL_STRIDE_BITS / 8)) == 0

/-- Shared body of the guards at the top of the four bitmap `render`
implementations (src/drawables/bitmap.rs lines 60-69 and 123-132,
src/drawables/zoomed_bitmap.rs lines 68-80 and 135-147): `height` is the
line-count bound of the `line` assertion and `maxEnd` the bound of the
`segment.end` assertion; returns the `usize` segment on success. -/
def renderGuards (height maxEnd : Nat) (line : Int) (segment : IntRange)
    (offsetBits : Nat) (dataLen : Nat) : Option (Nat × Nat) := do
  guard (0 ≤ line)
  let l := line.toNat
  guard (l < height)
  guard (offsetBits % 8 = 0)
  guard (0 ≤ segment.start)
  guard (segment.start ≤ segment.stop)
  let s := segment.start.toNat
  let e := segment.stop.toNat
  guard (e ≤ maxEnd)
  guard ((e - s) * 4 = dataLen)
  pure (s, e)

/-- `<Bitmap as Sprite>::render` (src/drawables/bitmap.rs lines 49-90): after
the assertions, zip the source pixel row slice with the destination pixels and
blend in place; destination bytes beyond the zipped prefix are untouched. -/
def BitmapData.renderSprite (bm : BitmapData) (line : Int) (segment : IntRange)
    (offsetBits : Nat) (data : List Nat) : Option (List Nat) := do
  let (s, e) ← renderGuards (bm.data.length / 4 / bm.width) bm.width line segment
    offsetBits data.length
  let l := line.toNat
  let srcs := (((chunksExact 4 bm.data).drop (l * bm.width)).drop s).take (e - s)
  let dests := chunksExact 4 data
  let blended ← (srcs.zip dests).mapM fun p => bitmapPixelSprite p.1 p.2
  pure (blended.flatten ++ data.drop (4 * blended.length))

/-- `<Bitmap as Effect>::render` (src/drawables/bitmap.rs lines 112-153). -/
def BitmapData.renderEffect (bm : BitmapData) (line : Int) (segment : IntRange)
    (offsetBits : Nat) (data : List Nat) : Option (List Nat) := do
  let (s, e) ← renderGuards (bm.data.length / 4 / bm.width) bm.width line segment
    offsetBits data.length
  let l := line.toNat
  let srcs := (((chunksExact 4 bm.data).drop (l * bm.width)).drop s).take (e - s)
  let dests := chunksExact 4 data
  let blended ← (srcs.zip dests).mapM fun p => bitmapPixelEffect p.1 p.2
  pure (blended.flatten ++ data.drop (4 * blended.length))

/-- `<Bitmap as Sprite>::lines` (src/drawables/bitmap.rs lines 31-35); the
Effect `lines` (lines 94-98) is identical. -/
def BitmapData.linesRange (bm : BitmapData) : IntRange :=
  ⟨0, (bm.data.length / 4 / bm.width : Nat)⟩

/-- `<Bitmap as Sprite>::line_segment` (src/drawables/bitmap.rs lines 37-47);
the Effect version (lines 100-110) is identical. -/
def BitmapData.lineSegmentRange (bm : BitmapData) : IntRange :=
  ⟨0, (bm.width : Nat)⟩

/-- The `Bitmap` Sprite implementation packaged for the orchestrator. -/
def BitmapData.spriteDrawable (bm : BitmapData) : Drawable where
  lines := fun _ => bm.linesRange
  lineSegment := fun _ _ _ => bm.lineSegmentRange
  render := fun _ line _ seg off data => bm.renderSprite line seg off data

/-- The `Bitmap` Effect implementation packaged for the orchestrator. -/
def BitmapData.effectDrawable (bm : BitmapData) : Drawable where
  lines := fun _ => bm.linesRange
  lineSegment := fun _ _ _ => bm.lineSegmentRange
  render := fun _ line _ seg off data => bm.renderEffect line seg off data

/-- The state of a `ZoomedBitmap<RgbaNoPadding<8>>`
(src/drawables/zoomed_bitmap.rs). -/
structure ZoomedBitmapData where
  width : Nat
  data : List Nat
  horizontalZoomFactor : Nat
  verticalZoomFactor : Nat

/-- The `assert_eq!` in `ZoomedBitmap::new` (src/drawables/zoomed_bitmap.rs
lines 26-29), exactly as written: the same
`data.len() % (width * PIXEL_STRIDE_BITS * 8) == 0` as `Bitmap::new`. -/
def ZoomedBitmapData.newCheck (width dataLen : Nat) : Bool :=
  dataLen % (width * RgbaNoPadding8.PIXEL_STRIDE_BITS * 8) == 0

/-- `<ZoomedBitmap as Sprite>::lines` (src/drawables/zoomed_bitmap.rs lines
40-44): `0 .. data.len() / 4 / width * vertical_zoom_factor`. -/
def ZoomedBitmapData.spriteLines (zb : ZoomedBitmapData) : IntRange :=
  ⟨0, (zb.data.length / 4 / zb.width * zb.verticalZoomFactor : Nat)⟩

/-- `<ZoomedBitmap as Sprite>::line_segment` (src/drawables/zoomed_bitmap.rs
lines 46-55): `0 .. width * horizontal_zoom_factor`. -/
def ZoomedBitmapData.spriteLineSegment (zb : ZoomedBitmapData) : IntRange :=
  ⟨0, (zb.width * zb.horizontalZoomFactor : Nat)⟩

/-- `<ZoomedBitmap as Effect>::lines` (src/drawables/zoomed_bitmap.rs lines
106-110): `0 .. data.len() / 4 / width`, without the vertical zoom factor. -/
def ZoomedBitmapData.effectLines (zb : ZoomedBitmapData) : IntRange :=
  ⟨0, (zb.data.length / 4 / zb.width : Nat)⟩

/-- `<ZoomedBitmap as Effect>::line_segment` (src/drawables/zoomed_bitmap.rs
lines 112-122): `0 .. width`, without the horizontal zoom factor. -/
def ZoomedBitmapData.effectLineSegment (zb : ZoomedBitmapData) : IntRange :=
  ⟨0, (zb.width : Nat)⟩

/-- The zoomed source pixel stream of `ZoomedBitmap::render` (both roles,
src/drawables/zoomed_bitmap.rs lines 82-91 and 149-158): split the source into
rows, repeat each row `vertical_zoom_factor` times, skip `line` rows, flatten
to pixels, repeat each pixel `horizontal_zoom_factor` times, then skip to
`segment.start` and take `segment.len()` pixels. -/
def ZoomedBitmapData.srcPixels (zb : ZoomedBitmapData) (l s e : Nat) : List (List Nat) :=
  let rows := chunksExact (zb.width * 4) zb.data
  let pixels := ((repeatEach zb.verticalZoomFactor rows).drop l).flatMap
    fun row => chunksExact 4 row
  (((repeatEach zb.horizontalZoomFactor pixels).drop s).take (e - s))

/-- `<ZoomedBitmap as Sprite>::render` (src/drawables/zoomed_bitmap.rs lines
57-102): guards as in `Bitmap` but with the zoomed height/width, then the
zoomed pixel stream blended with the non-saturating Sprite channel update. -/
def ZoomedBitmapData.renderSprite (zb : ZoomedBitmapData) (line : Int)
    (segment : IntRange) (offsetBits : Nat) (data : List Nat) : Option (List Nat) := do
  let (s, e) ← renderGuards (zb.data.length / 4 / zb.width * zb.verticalZoomFactor)
    (zb.width * zb.horizontalZoomFactor) line segment offsetBits data.length
  let l := line.toNat
  let srcs := zb.srcPixels l s e
  let dests := chunksExact 4 data
  let blended ← (srcs.zip dests).mapM fun p => zoomedPixelSprite p.1 p.2
  pure (blended.flatten ++ data.drop (4 * blended.length))

/-- `<ZoomedBitmap as Effect>::render` (src/drawables/zoomed_bitmap.rs lines
124-170): same guards and pixel stream, with the non-saturating Effect channel
update. -/
def ZoomedBitmapData.renderEffect (zb : ZoomedBitmapData) (line : Int)
    (segment : IntRange) (offsetBits : Nat) (data : List Nat) : Option (List Nat) := do
  let (s, e) ← renderGuards (zb.data.length / 4 / zb.width * zb.verticalZoomFactor)
    (zb.width * zb.horizontalZoomFactor) line segment offsetBits data.length
  let l := line.toNat
  let srcs := zb.srcPixels l s e
  let dests := chunksExact 4 data
  let blended ← (srcs.zip dests).mapM fun p => zoomedPixelEffect p.1 p.2
  pure (blended.flatten ++ data.drop (4 * blended.length))

/-- The `ColorClip` Sprite `render` (src/drawables/color_clip.rs lines 56-79):
assert `offset_bits == 0`, then blend the fixed colour onto every complete
destination pixel with the saturating Sprite formula. -/
def colorClipRenderSprite (color : List Nat) (offsetBits : Nat)
    (data : List Nat) : Option (List Nat) := do
  guard (offsetBits = 0)
  let blended ← (chunksExact 4 data).mapM fun dest => bitmapPixelSprite color dest
  pure (blended.flatten ++ data.drop (4 * blended.length))

/-- The `ColorClip` Effect `render` (src/drawables/color_clip.rs lines
100-123): `src_alpha = color[3]`, saturating Effect formula. -/
def colorClipRenderEffect (color : List Nat) (offsetBits : Nat)
    (data : List Nat) : Option (List Nat) := do
  guard (offsetBits = 0)
  let blended ← (chunksExact 4 data).mapM fun dest => bitmapPixelEffect color dest
  pure (blended.flatten ++ data.drop (4 * blended.length))

/-- A 1x1 fully opaque premultiplied red bitmap. -/
def redSprite : BitmapData := ⟨1, [255, 0, 0, 255]⟩

/-- A 1x1 fully opaque premultiplied blue bitmap. -/
def blueSprite : BitmapData := ⟨1, [0, 0, 255, 255]⟩

/-- A 1x1 source bitmap zoomed 3x horizontally and 2x vertically. -/
def zoomedOneByOne : ZoomedBitmapData := ⟨1, [10, 20, 30, 40], 3, 2⟩

/-- A fixture drawable whose visible columns cover `[-5, 5)` on line 0 and
whose render is the identity; used to exercise negative caller-space clips. -/
def negClipDrawable : Drawable where
  lines := fun _ => ⟨0, 1⟩
  lineSegment := fun _ _ _ => ⟨-5, 5⟩
  render := fun _ _ _ _ _ data => some data

/- ### Claims C4 and C5: interval intersection -/

/-- Claim C4 (claim as frozen, refuted): for the empty interval `a = [0,0)`,
`intersect(a, a)` is `None`, not the interval `a` itself — the claim that
`intersect(a, a)` equals `a` for every valid interval including empty ones
fails at `a = [0,0)`. -/
theorem intersect_self_empty_counterexample :
    IntRange.intersect ⟨0, 0⟩ ⟨0, 0⟩ = none ∧
      (none : Option IntRange) ≠ some ⟨0, 0⟩ := by
  constructor
  · decide
  · decide

/-- Claim C4 (amended): `intersect` is commutative for all intervals, and
`intersect(a, a)` returns `Some a` for every nonempty interval; for an empty
interval (`start = stop`) it returns `None` instead. -/
theorem intersect_comm_and_self (a b : IntRange) :
    IntRange.intersect a b = IntRange.intersect b a ∧
      (a.start < a.stop → IntRange.intersect a a = some a) ∧
      (a.start = a.stop → IntRange.intersect a a = none) := by
  refine ⟨?_, ?_, ?_⟩
  · unfold IntRange.intersect
    rcases a with ⟨a1, a2⟩
    rcases b with ⟨b1, b2⟩
    simp only
    by_cases h1 : a1 < b2 ∧ a2 > b1
    · rw [if_pos h1, if_pos ⟨h1.2, h1.1⟩]
      simp [max_comm, min_comm]
    · rw [if_neg h1, if_neg (fun h => h1 ⟨h.2, h.1⟩)]
  · intro h
    unfold IntRange.intersect
    rw [if_pos ⟨h, h⟩]
    simp
  · intro h
    unfold IntRange.intersect
    rw [if_neg]
    intro hc
    omega

/-- Witness for `intersect_comm_and_self` at concrete intervals. -/
theorem intersect_comm_and_self_witness :
    IntRange.intersect ⟨0, 3⟩ ⟨1, 5⟩ = IntRange.intersect ⟨1, 5⟩ ⟨0, 3⟩ ∧
      IntRange.intersect ⟨0, 3⟩ ⟨0, 3⟩ = some ⟨0, 3⟩ :=
  ⟨(intersect_comm_and_self ⟨0, 3⟩ ⟨1, 5⟩).1,
    (intersect_comm_and_self ⟨0, 3⟩ ⟨0, 3⟩).2.1 (by decide)⟩

/-- Claim C5 (confirmed): strict half-open intersection semantics:
`[0,5) ∩ [5,10)` is empty, `[0,5) ∩ [3,8) = [3,5)`, and whenever
`a.end = b.start` the intersection is empty, never a degenerate point. -/
theorem intersect_half_open (a b : IntRange) (h : a.stop = b.start) :
    IntRange.intersect ⟨0, 5⟩ ⟨5, 10⟩ = none ∧
      IntRange.intersect ⟨0, 5⟩ ⟨3, 8⟩ = some ⟨3, 5⟩ ∧
      IntRange.intersect a b = none := by
  refine ⟨by decide, by decide, ?_⟩
  unfold IntRange.intersect
  rw [if_neg]
  intro hc
  omega

/-- Witness for `intersect_half_open` at touching intervals. -/
theorem intersect_half_open_witness :
    IntRange.intersect ⟨0, 5⟩ ⟨5, 10⟩ = none ∧
      IntRange.intersect ⟨0, 5⟩ ⟨3, 8⟩ = some ⟨3, 5⟩ ∧
      IntRange.intersect ⟨0, 5⟩ ⟨5, 10⟩ = none :=
  intersect_half_open ⟨0, 5⟩ ⟨5, 10⟩ (by decide)

/- ### Claim C1: sprite layering order -/

/-- Claim C1 (claim as frozen, refuted): two overlapping fully-opaque solid
1x1 sprites, red then blue, composited by `render_segment` into a zeroed
destination leave the shared pixel red, not blue: under the Sprite blend
`dest + src * (1 - dest.alpha)` the earlier sprite occludes the later one. -/
theorem sprite_order_counterexample :
    renderSegment 32 none 0 ⟨0, 1⟩ ⟨0, 1⟩ [0, 0, 0, 0]
        [(⟨0, 0⟩, redSprite.spriteDrawable), (⟨0, 0⟩, blueSprite.spriteDrawable)] [] =
      .ok [255, 0, 0, 255] ∧
      ([255, 0, 0, 255] : List Nat) ≠ [0, 0, 255, 255] := by
  exact ⟨rfl, by decide⟩

/-- Claim C1 (amended): sprites composite front to back, so the sprite earlier
in iteration order occludes the later one: red-then-blue leaves the shared
pixel red, and blue-then-red leaves it blue. -/
theorem sprite_order_front_to_back :
    renderSegment 32 none 0 ⟨0, 1⟩ ⟨0, 1⟩ [0, 0, 0, 0]
        [(⟨0, 0⟩, redSprite.spriteDrawable), (⟨0, 0⟩, blueSprite.spriteDrawable)] [] =
      .ok [255, 0, 0, 255] ∧
    renderSegment 32 none 0 ⟨0, 1⟩ ⟨0, 1⟩ [0, 0, 0, 0]
        [(⟨0, 0⟩, blueSprite.spriteDrawable), (⟨0, 0⟩, redSprite.spriteDrawable)] [] =
      .ok [0, 0, 255, 255] := by
  exact ⟨rfl, rfl⟩

/- ### Claim C8: Bitmap / ZoomedBitmap construction check -/

/-- Claim C8 (code bug): `Bitmap::new` and `ZoomedBitmap::new` assert
`data.len() % (width * PIXEL_STRIDE_BITS * 8) == 0`, i.e. a multiple of
`width * 256` bytes, not of one full row of `width * 4` bytes: a valid single
row (`width = 1`, 4 data bytes) is rejected even though it is a whole number
of lines, contradicting the constructors' own documentation. -/
theorem bitmap_new_check_rejects_whole_row :
    BitmapData.newCheck 1 4 = false ∧
      BitmapData.wholeRows 1 4 = true ∧
      ZoomedBitmapData.newCheck 1 4 = false := by
  decide

/- ### Claim C9: zoomed bitmap extent and rendering -/

/-- Claim C9 (claim as frozen, refuted): the `Effect` implementation of a
`ZoomedBitmap` over a 1x1 source with horizontal zoom 3 and vertical zoom 2
advertises the unzoomed extent `[0,1)` x `[0,1)`, not 3 columns and 2
lines. -/
theorem zoomed_effect_extent_counterexample :
    zoomedOneByOne.effectLines = ⟨0, 1⟩ ∧
      (⟨0, 1⟩ : IntRange) ≠ ⟨0, 2⟩ ∧
      zoomedOneByOne.effectLineSegment = ⟨0, 1⟩ ∧
      (⟨0, 1⟩ : IntRange) ≠ ⟨0, 3⟩ := by
  decide

/-- Claim C9 (amended): as a `Sprite`, a `ZoomedBitmap` over a 1x1 source with
horizontal zoom 3 and vertical zoom 2 reports 3 columns and 2 lines, and each
of those 6 output pixels rendered into a zeroed destination equals the single
source pixel; the `Effect` implementation instead reports the unzoomed 1x1
extent, whose single advertised pixel also renders to the source pixel. -/
theorem zoomed_extent_and_render :
    zoomedOneByOne.spriteLines = ⟨0, 2⟩ ∧
      zoomedOneByOne.spriteLineSegment = ⟨0, 3⟩ ∧
      zoomedOneByOne.renderSprite 0 ⟨0, 3⟩ 0 (List.replicate 12 0) =
        some [10, 20, 30, 40, 10, 20, 30, 40, 10, 20, 30, 40] ∧
      zoomedOneByOne.renderSprite 1 ⟨0, 3⟩ 0 (List.replicate 12 0) =
        some [10, 20, 30, 40, 10, 20, 30, 40, 10, 20, 30, 40] ∧
      zoomedOneByOne.effectLines = ⟨0, 1⟩ ∧
      zoomedOneByOne.effectLineSegment = ⟨0, 1⟩ ∧
      zoomedOneByOne.renderEffect 0 ⟨0, 1⟩ 0 [0, 0, 0, 0] = some [10, 20, 30, 40] := by
  refine ⟨by decide, by decide, rfl, rfl, by decide, by decide, rfl⟩

/- ### Claim C2: adapter blend formulas -/

/-- Claim C2 (claim as frozen, refuted): the `ZoomedBitmap` Sprite adapter
does not saturate: rendering a fully opaque 1x1 source pixel onto a
destination pixel with a 255 channel and zero alpha overflows the plain `u8`
addition and aborts, instead of producing the saturated pixel the claim
demands for every Sprite adapter. -/
theorem zoomed_blend_not_saturating_counterexample :
    ZoomedBitmapData.renderSprite ⟨1, [255, 0, 0, 255], 1, 1⟩ 0 ⟨0, 1⟩ 0
        [255, 255, 255, 0] = none ∧
      (none : Option (List Nat)) ≠ some [255, 255, 255, 255] := by
  exact ⟨rfl, by decide⟩

/-- Claim C2 (amended): the `Bitmap` and `ColorClip` adapters blend as the
claim states: per channel `dest + src * (255 - dest.alpha) / 255` (Sprite)
resp. `src + dest * (255 - src.alpha) / 255` (Effect), saturating at 255, the
widened intermediate `src * (255 - alpha)` never exceeding the `u16` range and
its narrowing back to `u8` always in range; the `ZoomedBitmap` adapter instead
adds without saturating (see the counterexample). -/
theorem bitmap_colorclip_blend_saturating :
    (∀ s a : Nat, s ≤ 255 → a ≤ 255 →
      s * (255 - a) ≤ 65025 ∧ s * (255 - a) / 255 ≤ 255) ∧
    (∀ d s a : Nat, blendChannelSprite d s a ≤ 255 ∧ blendChannelEffect d s a ≤ 255) ∧
    BitmapData.renderSprite ⟨1, [255, 0, 0, 255]⟩ 0 ⟨0, 1⟩ 0 [200, 0, 0, 0] =
      some [255, 0, 0, 255] ∧
    BitmapData.renderEffect ⟨1, [100, 0, 0, 128]⟩ 0 ⟨0, 1⟩ 0 [200, 0, 0, 255] =
      some [199, 0, 0, 255] ∧
    colorClipRenderSprite [255, 0, 0, 255] 0 [200, 0, 0, 0] = some [255, 0, 0, 255] ∧
    colorClipRenderEffect [100, 0, 0, 128] 0 [200, 0, 0, 255] = some [199, 0, 0, 255] := by
  refine ⟨?_, ?_, rfl, rfl, rfl, rfl⟩
  · intro s a hs ha
    have h1 : s * (255 - a) ≤ 255 * 255 := Nat.mul_le_mul hs (by omega)
    refine ⟨by omega, ?_⟩
    calc s * (255 - a) / 255 ≤ 255 * 255 / 255 := Nat.div_le_div_right h1
      _ = 255 := by norm_num
  · intro d s a
    exact ⟨min_le_left _ _, min_le_left _ _⟩

/-- Witness for `bitmap_colorclip_blend_saturating` at a concrete channel. -/
theorem bitmap_colorclip_blend_saturating_witness :
    (255 ≤ 255 ∧ (0 : Nat) ≤ 255) ∧
      255 * (255 - 0) ≤ 65025 ∧ 255 * (255 - 0) / 255 ≤ 255 :=
  ⟨⟨by decide, by decide⟩,
    bitmap_colorclip_blend_saturating.1 255 0 (by decide) (by decide)⟩

/- ### Claim C6: out-of-range sprite is skipped -/

/-- Claim C6 (confirmed): a sprite at `Position { x: 100, y: 0 }` whose visible
columns are `[0, 5)` on a line it covers produces zero render calls when
`render_segment` is asked for segment `[0, 10)`: whatever its `render` function
`r` is, the call succeeds and leaves the buffer untouched, because the
drawable-space segment `[-100, -90)` has empty intersection with `[0, 5)`. -/
theorem out_of_range_sprite_skipped
    (r : Option IntRange → Int → IntRange → IntRange → Nat → List Nat → Option (List Nat)) :
    renderSegment 32 none 0 ⟨0, 10⟩ ⟨0, 10⟩ (List.replicate 40 0)
        [(⟨100, 0⟩, ⟨fun _ => ⟨0, 1⟩, fun _ _ _ => ⟨0, 5⟩, r⟩)] [] =
      .ok (List.replicate 40 0) := by
  rfl

/- ### Claim C3: dispatched slice length and offset alignment -/

/-- Claim C3 (confirmed): when `render_segment` dispatches a drawable with a
whole-byte stride (`8 ∣ S`, as for every catalogued format the adapters
accept), the `segment_offset_bits` it computes is `0` — in particular a
multiple of the stride modulo 8 — and the byte slice `sliceClip` it hands to
`render` (via `bufferClip` bounds on the caller-space clip pixels `a ≤ b`)
has length exactly `segment.len() * (S / 8)` bytes, so the adapters'
offset-alignment and buffer-length assertions hold. -/
theorem dispatch_slice_exact (S : Nat) (s0 : Int) (a b : Nat) (buffer : List Nat)
    (hS : S % 8 = 0) (hab : a ≤ b)
    (hbuf : bufferClip (segOffsetBits S s0).toNat b S ≤ buffer.length) :
    segOffsetBits S s0 = 0 ∧
      (sliceClip buffer (bufferClip (segOffsetBits S s0).toNat a S)
          (bufferClip (segOffsetBits S s0).toNat b S)).length = (b - a) * (S / 8) ∧
      (segOffsetBits S s0).toNat % 8 = 0 * S % 8 := by
  have h8 : (8 : Int) ∣ (S : Int) := by
    exact_mod_cast Nat.dvd_of_mod_eq_zero hS
  have h0 : segOffsetBits S s0 = 0 := by
    unfold segOffsetBits
    exact Int.tmod_eq_zero_of_dvd (Dvd.dvd.mul_left h8 s0)
  obtain ⟨t, ht⟩ := Nat.dvd_of_mod_eq_zero hS
  have hclip : ∀ c : Nat, bufferClip (segOffsetBits S s0).toNat c S = c * t := by
    intro c
    unfold bufferClip
    rw [h0]
    have h1 : (0 : Int).toNat + c * S + 7 = 8 * (c * t) + 7 := by
      rw [ht, Int.toNat_zero]
      ring
    rw [h1, Nat.mul_add_div (by norm_num)]
    norm_num
  refine ⟨h0, ?_, by simp [h0]⟩
  rw [hclip a, hclip b] at *
  unfold sliceClip
  rw [List.length_take, List.length_drop]
  have h3 : a * t ≤ b * t := Nat.mul_le_mul hab (Nat.le_refl t)
  have h4 : (b - a) * (S / 8) = b * t - a * t := by
    rw [ht, Nat.sub_mul]
    congr 1 <;> rw [Nat.mul_comm 8 t, Nat.mul_div_cancel t (by norm_num)]
  omega

/-- Witness for `dispatch_slice_exact` at stride 32 and clip pixels [0, 1). -/
theorem dispatch_slice_exact_witness :
    (32 % 8 = 0 ∧ (0 : Nat) ≤ 1 ∧
        bufferClip (segOffsetBits 32 0).toNat 1 32 ≤ (List.replicate 4 (0 : Nat)).length) ∧
      (segOffsetBits 32 0 = 0 ∧
        (sliceClip (List.replicate 4 (0 : Nat)) (bufferClip (segOffsetBits 32 0).toNat 0 32)
            (bufferClip (segOffsetBits 32 0).toNat 1 32)).length = (1 - 0) * (32 / 8) ∧
        (segOffsetBits 32 0).toNat % 8 = 0 * 32 % 8) :=
  ⟨⟨by decide, by decide, by decide⟩,
    dispatch_slice_exact 32 0 0 1 (List.replicate 4 0) (by decide) (by decide) (by decide)⟩

/- ### Claim C7: whole-line stride check -/

/-- Helper: `renderStep` never fails with the whole-line stride condition:
its only failure sites are the clip conversion, the slice indexing and the
drawable's own panic. -/
theorem renderStep_no_invalidFormat (S soff : Nat) (al : Option IntRange) (li : Int)
    (ls ss : IntRange) (pd : Position × Drawable) (buffer : List Nat) :
    renderStep S soff al li ls ss pd buffer ≠ .error .invalidFormat := by
  intro hc
  simp only [renderStep] at hc
  repeat' split at hc
  all_goals simp_all

/-- Helper: neither `render_segment` loop can fail with the whole-line stride
condition. -/
theorem runDrawables_no_invalidFormat (S soff : Nat) (al : Option IntRange) (li : Int)
    (ls ss : IntRange) (l : List (Position × Drawable)) :
    ∀ buffer : List Nat, runDrawables S soff al li ls ss l buffer ≠ .error .invalidFormat := by
  induction l with
  | nil =>
    intro buffer
    simp [runDrawables]
  | cons pd rest ih =>
    intro buffer
    unfold runDrawables
    cases h : renderStep S soff al li ls ss pd buffer with
    | ok b2 => exact ih b2
    | error e =>
      intro hc
      have he : e = .invalidFormat := by injection hc
      exact renderStep_no_invalidFormat S soff al li ls ss pd buffer (by rw [h, he])

/-- Helper: `render_segment` never fails with the whole-line stride condition;
only `render_line` checks divisibility by 8. -/
theorem renderSegment_no_invalidFormat (S : Nat) (al : Option IntRange) (li : Int)
    (ls ss : IntRange) (buffer : List Nat) (sprites effects : List (Position × Drawable)) :
    renderSegment S al li ls ss buffer sprites effects ≠ .error .invalidFormat := by
  intro hc
  simp only [renderSegment] at hc
  split at hc
  · split at hc
    · split at hc
      · exact runDrawables_no_invalidFormat S (segOffsetBits S ss.start).toNat al li ls ss
          effects _ hc
      · rename_i e heq
        have he : e = .invalidFormat := by injection hc
        exact runDrawables_no_invalidFormat S (segOffsetBits S ss.start).toNat al li ls ss
          sprites buffer (by rw [heq, he])
    · simp at hc
  · simp at hc

/-- Claim C7 (confirmed): the whole-line entry point `render_line` fails with
the `InvalidFormat` condition (the stride assertion, checked before any
drawable is dispatched) exactly when `PIXEL_STRIDE_BITS` is not divisible by
8, for every drawable collection; `render_segment` itself imposes no such
divisibility requirement — a call with stride 4 succeeds. -/
theorem render_line_stride_check :
    (∀ (S : Nat) (al : Option IntRange) (li : Int) (buffer : List Nat)
        (sprites effects : List (Position × Drawable)),
      renderLine S al li buffer sprites effects = .error .invalidFormat ↔ ¬S % 8 = 0) ∧
      renderSegment 4 none 0 ⟨0, 2⟩ ⟨0, 2⟩ [0, 0] [] [] = .ok [0, 0] := by
  refine ⟨?_, rfl⟩
  intro S al li buffer sprites effects
  constructor
  · intro h h8
    unfold renderLine at h
    rw [if_pos h8] at h
    split at h
    · exact renderSegment_no_invalidFormat S al li _ _ buffer sprites effects h
    · exact absurd (by injection h) (by simp)
  · intro h8
    unfold renderLine
    rw [if_neg h8]

/- ### Claim C10: negative caller-space clips abort -/

/-- Claim C10 (confirmed): although drawable `Position`s may be arbitrarily
negative, the region actually rendered must have non-negative caller-space
columns: whenever a sprite's line check passes and its intersected visible
interval `seg`, translated back to caller space, has a negative start, the
dispatch fails at the pixel-to-byte conversion (the "buffer clip pixels"
`try_into`) before any render call, the sprite loop containing that sprite
fails, and the whole `render_segment` invocation aborts instead of
returning a rendered buffer. -/
theorem negative_clip_aborts (S soff : Nat) (al : Option IntRange) (li : Int)
    (ls ss : IntRange) (pos : Position) (d : Drawable) (seg : IntRange)
    (pre post effects : List (Position × Drawable)) (buffer : List Nat)
    (hlines : (d.lines (al.map fun r => r.offset (-pos.y))).contains (li - pos.y) = true)
    (hseg : (ss.offset (-pos.x)).intersect
        (d.lineSegment (al.map fun r => r.offset (-pos.y)) (li - pos.y)
          (ls.offset (-pos.x))) = some seg)
    (hneg : (seg.offset pos.x).start < 0) :
    renderStep S soff al li ls ss (pos, d) buffer = .error .clipPixelsNegative ∧
      (∃ e, runDrawables S soff al li ls ss (pre ++ (pos, d) :: post) buffer = .error e) ∧
      ∀ out, renderSegment S al li ls ss buffer (pre ++ (pos, d) :: post) effects ≠
        .ok out := by
  have hstep : ∀ (so : Nat) (b : List Nat),
      renderStep S so al li ls ss (pos, d) b = .error .clipPixelsNegative := by
    intro so b
    simp only [renderStep, hlines, if_true, hseg]
    rw [if_neg (Int.not_le.mpr hneg)]
  have hrun : ∀ (so : Nat) (p : List (Position × Drawable)) (b : List Nat),
      ∃ e, runDrawables S so al li ls ss (p ++ (pos, d) :: post) b = .error e := by
    intro so p
    induction p with
    | nil =>
      intro b
      refine ⟨.clipPixelsNegative, ?_⟩
      rw [List.nil_append]
      unfold runDrawables
      rw [hstep so b]
    | cons x xs ih =>
      intro b
      rw [List.cons_append]
      unfold runDrawables
      cases h : renderStep S so al li ls ss x b with
      | ok b2 =>
        obtain ⟨e, he⟩ := ih b2
        exact ⟨e, he⟩
      | error e => exact ⟨e, rfl⟩
  refine ⟨hstep soff buffer, hrun soff pre buffer, ?_⟩
  intro out hc
  simp only [renderSegment] at hc
  split at hc
  · split at hc
    · split at hc
      · rename_i b2 heq
        obtain ⟨e, he⟩ := hrun (segOffsetBits S ss.start).toNat pre buffer
        rw [he] at heq
        exact Except.noConfusion heq
      · exact Except.noConfusion hc
    · exact Except.noConfusion hc
  · exact Except.noConfusion hc

/-- Witness for `negative_clip_aborts`: a drawable visible on columns
`[-5, 5)` at the origin, with the requested segment also `[-5, 5)`. -/
theorem negative_clip_aborts_witness :
    renderStep 32 0 none 0 ⟨-5, 5⟩ ⟨-5, 5⟩ (⟨0, 0⟩, negClipDrawable)
        (List.replicate 40 0) = .error .clipPixelsNegative ∧
      renderSegment 32 none 0 ⟨-5, 5⟩ ⟨-5, 5⟩ (List.replicate 40 0)
          [(⟨0, 0⟩, negClipDrawable)] [] ≠ .ok (List.replicate 40 0) :=
  ⟨(negative_clip_aborts 32 0 none 0 ⟨-5, 5⟩ ⟨-5, 5⟩ ⟨0, 0⟩ negClipDrawable ⟨-5, 5⟩
      [] [] [] (List.replicate 40 0) (by decide) (by decide) (by decide)).1,
    (negative_clip_aborts 32 0 none 0 ⟨-5, 5⟩ ⟨-5, 5⟩ ⟨0, 0⟩ negClipDrawable ⟨-5, 5⟩
      [] [] [] (List.replicate 40 0) (by decide) (by decide) (by decide)).2.2
      (List.replicate 40 0)⟩
